import Mathlib

/-!
Verification of the RS-485 dimmer bus core
(`custom_components/ha_udk_0410_dimmer/light.py` and
`custom_components/udk_0410_dimmer/light.py`).

Bytes are modelled as `Nat`; Python ints that may be negative (levels,
fade times, channel indices before clamping) are modelled as `Int`.
`& 0xFF` and `& 0x7F` on non-negative values are written `% 256` and
`% 128`.  The asynchronous environment (what bytes the serial port
delivers, whether writes succeed) is an explicit oracle argument, so
every embedded operation is a total function.
-/

namespace Udk0410

/-- Embeds `Rs485Dimmer._ack_pattern` / `FrameCodec.expected_ack`: the 4-byte
ACK pattern `FE <addr> 06 FF` for a module address. -/
def expectedAck (address : Nat) : List Nat :=
  [0xFE, address, 0x06, 0xFF]

/-- The `p in buf` membership test Python applies to byte strings in
`send_and_wait_for` (line 129): contiguous-substring containment,
realised as "`pat` is a prefix of some suffix of `buffer`". -/
def containsAck : List Nat → List Nat → Bool
  | [], pat => pat.isEmpty
  | b :: rest, pat => pat.isPrefixOf (b :: rest) || containsAck rest pat

/-- Embeds `Udk0410DimmerChannel._is_ack` (udk variant, lines 149-156):
`len(response) >= 4 and response[0] == 0xFE and response[1] == addr
and response[2] == 0x06 and response[3] == 0xFF`. -/
def isAckResponse (address : Nat) (response : List Nat) : Bool :=
  decide (4 ≤ response.length)
    && (response.getD 0 0 == 0xFE)
    && (response.getD 1 0 == address)
    && (response.getD 2 0 == 0x06)
    && (response.getD 3 0 == 0xFF)

/-- Embeds `max(0, min(255, int(x)))` as applied to levels and fade times in
`_build_data_array` (lines 201-202). -/
def clampByte (x : Int) : Nat :=
  (max 0 (min 255 x)).toNat

/-- Embeds `Rs485Dimmer._build_data_array` (lines 197-207): start from
`levels = [1,1,1,1]`, `times = [5,5,5,5]`, clamp the target index
`idx = max(0, min(3, dimmer_index - 1))`, overwrite the pair there,
then interleave `levels[i], times[i]` for `i` in `range(4)`. -/
def buildDataArray (channel level dimmTime : Int) : List Nat :=
  let idx : Nat := (max 0 (min 3 (channel - 1))).toNat
  let levels : List Nat := (List.replicate 4 1).set idx (clampByte level)
  let times : List Nat := (List.replicate 4 5).set idx (clampByte dimmTime)
  (List.range 4).flatMap (fun i => [levels.getD i 0, times.getD i 0])

/-- The message built in `async_turn_on` (lines 272-280) /
`_build_set_message` (udk variant, lines 139-147):
`[SYNC, START, addr, CMD_SET] + data + [checksum, STOP]` with
`checksum = (sum([addr, 0x57] + data) & 0xFF) & 0x7F`. -/
def buildSetMessage (address : Nat) (channel level dimmTime : Int) : List Nat :=
  let data := buildDataArray channel level dimmTime
  let checksum := (address + 0x57 + data.sum) % 256 % 128
  [0xFF, 0xFE, address, 0x57] ++ data ++ [checksum, 0xFF]

/-! ### The BusLink read loop (`Rs485Module.send_and_wait_for`) -/

/-- One outcome of `await asyncio.wait_for(self._reader.read(1024), ...)`
inside the read loop: a timeout (loop continues), another exception
(loop breaks), or a delivered chunk of bytes. -/
inductive ReadEvent where
  | timedOut
  | readError
  | chunk (data : List Nat)
deriving DecidableEq, Repr

/-- Python `buf[-n:]` for a non-negative `n`: the most recent `n` bytes —
except that `buf[-0:]` is `buf[0:]`, the whole buffer, so `n = 0`
truncates nothing. -/
def pyLastN (l : List Nat) (n : Nat) : List Nat :=
  if n = 0 then l else l.drop (l.length - n)

/-- Lines 125-126: `if len(buf) > max_buffer: buf[:] = buf[-max_buffer:]`
applied after a chunk is appended. -/
def boundBuffer (maxBuffer : Nat) (b : List Nat) : List Nat :=
  if maxBuffer < b.length then pyLastN b maxBuffer else b

/-- The `while time.monotonic() < deadline` read loop of
`send_and_wait_for` (lines 110-153), driven by the finite list of read
outcomes the environment produces before the deadline.  A timeout
continues, a read error breaks (returning the buffer with no match), an
empty chunk is skipped by `if chunk:`, and a non-empty chunk is
appended, the buffer bounded, and each pattern tested with `p in buf`;
the first match returns immediately. -/
def readLoop (patterns : List (List Nat)) (maxBuffer : Nat) :
    List ReadEvent → List Nat → List Nat × Option (List Nat)
  | [], buf => (buf, none)
  | ReadEvent.timedOut :: rest, buf => readLoop patterns maxBuffer rest buf
  | ReadEvent.readError :: _, buf => (buf, none)
  | ReadEvent.chunk data :: rest, buf =>
      if data.isEmpty then readLoop patterns maxBuffer rest buf
      else
        let buf2 := boundBuffer maxBuffer (buf ++ data)
        match patterns.find? (fun p => containsAck buf2 p) with
        | some p => (buf2, some p)
        | none => readLoop patterns maxBuffer rest buf2

/-- The bytes the environment delivered, in order, across a list of read
outcomes. -/
def streamBytes (events : List ReadEvent) : List Nat :=
  events.flatMap (fun e => match e with | ReadEvent.chunk d => d | _ => [])

/-- Observable steps of one `send_and_wait_for` call, for stating lock
and side-effect properties: lock acquisition/release (`async with
self._lock`), the stale-input flush, and the frame write. -/
inductive Ev where
  | acquire
  | release
  | flushEv
  | writeEv (message : List Nat)
deriving DecidableEq, Repr

/-- Result of one embedded `send_and_wait_for` call: the buffer and
matched pattern it returns, plus the trace of observable steps it took. -/
structure TransactResult where
  buffer : List Nat
  matched : Option (List Nat)
  trace : List Ev
deriving DecidableEq, Repr

/-- Embeds `Rs485Module.send_and_wait_for` (lines 80-153).  Here `connected` is
whether `_reader`/`_writer` are set (line 91), `writeOk` whether
`write`/`drain` succeed (lines 100-105), and `events` the read outcomes
the port produces before the deadline.  Every `return` inside the
`async with self._lock` block leaves through the lock scope's exit, so
each such path ends its trace with `Ev.release`. -/
def sendAndWaitFor (connected writeOk flushBeforeSend : Bool)
    (message : List Nat) (patterns : List (List Nat)) (maxBuffer : Nat)
    (events : List ReadEvent) : TransactResult :=
  if connected = false then
    { buffer := [], matched := none, trace := [] }
  else
    let pre := Ev.acquire :: (if flushBeforeSend then [Ev.flushEv] else [])
    if writeOk = false then
      { buffer := [], matched := none, trace := pre ++ [Ev.release] }
    else
      let r := readLoop patterns maxBuffer events []
      { buffer := r.1, matched := r.2,
        trace := pre ++ [Ev.writeEv message, Ev.release] }

/-- Net number of lock acquisitions left unreleased by a trace. -/
def lockBalance (t : List Ev) : Int :=
  (t.count Ev.acquire : Int) - (t.count Ev.release : Int)

/-! ### The ChannelController retry loop (`Rs485Dimmer`) -/

/-- The body of `sende_befehl_mit_ack` (lines 222-258) from a given
attempt number with a given number of attempts left.  `link n` is the
`(buf, matched)` pair `send_and_wait_for` returns on attempt `n`; the
loop succeeds as soon as `matched == ack_pat`.  Returns the final
success flag and how many attempts were performed. -/
def retryGo (link : Nat → List Nat × Option (List Nat)) (ackPat : List Nat) :
    Nat → Nat → Bool × Nat
  | _, 0 => (false, 0)
  | attempt, n + 1 =>
      if (link attempt).2 = some ackPat then (true, 1)
      else
        let rest := retryGo link ackPat (attempt + 1) n
        (rest.1, rest.2 + 1)

/-- Embeds `Rs485Dimmer.sende_befehl_mit_ack`: attempts are numbered
`1..max_wiederholungen`. -/
def sendeBefehlMitAck (link : Nat → List Nat × Option (List Nat))
    (ackPat : List Nat) (maxWiederholungen : Nat) : Bool × Nat :=
  retryGo link ackPat 1 maxWiederholungen

/-- The two cached fields of `Rs485Dimmer`: `_is_on` and `_brightness`. -/
structure DimmerState where
  isOn : Bool
  brightness : Int
deriving DecidableEq, Repr

/-- The `transition` keyword as `async_turn_on` receives it: absent,
a numeric value, or a value `float()`/`int()` rejects. -/
inductive TransitionInput where
  | missing
  | numeric (q : ℚ)
  | invalid
deriving DecidableEq, Repr

/-- Python `int(float(q))` on a finite numeric value: truncation toward
zero. -/
def truncTowardZero (q : ℚ) : Int :=
  if 0 ≤ q then q.floor else q.ceil

/-- Lines 262-270: `dimm_time_s = int(float(transition))` guarded by
`try/except` with default 5, and default 5 when `transition is None`. -/
def parseDimmTime : TransitionInput → Int
  | TransitionInput.missing => 5
  | TransitionInput.numeric q => truncTowardZero q
  | TransitionInput.invalid => 5

/-- Embeds `Rs485Dimmer.async_turn_on` (lines 260-297), with the wire modelled
by `link message attempt = (buf, matched)`: build the set message,
run `sende_befehl_mit_ack` with 3 attempts, and on success set
`_is_on = True` and `_brightness = level`; otherwise leave the cached
state untouched. -/
def asyncTurnOn (link : List Nat → Nat → List Nat × Option (List Nat))
    (address : Nat) (channel : Int) (st : DimmerState)
    (level : Int) (t : TransitionInput) : DimmerState :=
  let message := buildSetMessage address channel level (parseDimmTime t)
  let success := (sendeBefehlMitAck (link message) (expectedAck address) 3).1
  if success then { isOn := true, brightness := level } else st

/-- Line 112: `chunk_timeout = min(read_chunk_timeout, max(0.01, remaining))`,
over exact rationals. -/
def chunkTimeoutCalc (readChunkTimeout remaining : ℚ) : ℚ :=
  min readChunkTimeout (max (1 / 100) remaining)

/-- Specification-side frame description, written from the spec's
request-frame wording for the refinement comparison of C2: sync and start bytes, address, the `0x57`
opcode, the pair for the addressed channel set to the clamped level and
fade with every other pair `(1, 5)`, the 7-bit checksum over address,
opcode and payload, and the stop byte. -/
def specSetFrame (address : Nat) (channel level fade : Int) : List Nat :=
  let pair : Int → Nat × Nat := fun k =>
    if channel = k then (clampByte level, clampByte fade) else (1, 5)
  let payload := [(pair 1).1, (pair 1).2, (pair 2).1, (pair 2).2,
                  (pair 3).1, (pair 3).2, (pair 4).1, (pair 4).2]
  [0xFF, 0xFE, address, 0x57] ++ payload
    ++ [(address + 0x57 + payload.sum) % 256 % 128, 0xFF]

/-! ## Helper lemmas -/

theorem containsAck_iff (buffer pat : List Nat) :
    containsAck buffer pat = true ↔ pat <:+: buffer := by
  induction buffer with
  | nil => simp [containsAck, List.isEmpty_iff, List.infix_nil]
  | cons b rest ih =>
      simp [containsAck, List.isPrefixOf_iff_prefix, ih, List.infix_cons_iff]

theorem isAckResponse_iff (a : Nat) (response : List Nat) :
    isAckResponse a response = true ↔ expectedAck a <+: response := by
  rcases response with _ | ⟨b0, _ | ⟨b1, _ | ⟨b2, _ | ⟨b3, rest⟩⟩⟩⟩
  · simp [isAckResponse, expectedAck, List.prefix_nil]
  · simp [isAckResponse, expectedAck, List.cons_prefix_cons, List.prefix_nil]
  · simp [isAckResponse, expectedAck, List.cons_prefix_cons, List.prefix_nil]
  · simp [isAckResponse, expectedAck, List.cons_prefix_cons, List.prefix_nil]
  · simp only [isAckResponse, expectedAck, Bool.and_eq_true, decide_eq_true_eq,
      beq_iff_eq, List.getD_cons_zero, List.getD_cons_succ, List.cons_prefix_cons,
      List.length_cons, List.nil_prefix, and_true]
    omega

theorem retryGo_never (link : Nat → List Nat × Option (List Nat)) (ackPat : List Nat)
    (h : ∀ n, (link n).2 ≠ some ackPat) :
    ∀ k n, retryGo link ackPat k n = (false, n) := by
  intro k n
  induction n generalizing k with
  | zero => rfl
  | succ m ih => simp [retryGo, h k, ih (k + 1)]

theorem boundBuffer_length_le (maxB : Nat) (hm : 1 ≤ maxB) (b : List Nat) :
    (boundBuffer maxB b).length ≤ maxB := by
  by_cases hlt : maxB < b.length
  · have h0 : ¬maxB = 0 := by omega
    simp only [boundBuffer, pyLastN, if_pos hlt, if_neg h0, List.length_drop]
    omega
  · simp only [boundBuffer, if_neg hlt]
    omega

theorem boundBuffer_suffix (maxB : Nat) (b : List Nat) : boundBuffer maxB b <:+ b := by
  by_cases hlt : maxB < b.length
  · by_cases h0 : maxB = 0
    · simp only [boundBuffer, pyLastN, if_pos hlt, if_pos h0]
      exact List.suffix_refl b
    · simp only [boundBuffer, pyLastN, if_pos hlt, if_neg h0]
      exact List.drop_suffix _ _
  · simp only [boundBuffer, if_neg hlt]
    exact List.suffix_refl b

theorem boundBuffer_eq_drop (maxB : Nat) (hm : 1 ≤ maxB) (b : List Nat)
    (h : maxB < b.length) :
    boundBuffer maxB b = b.drop (b.length - maxB) := by
  simp only [boundBuffer, pyLastN, if_pos h, if_neg (by omega : ¬maxB = 0)]

theorem suffix_append_right {l₁ l₂ s : List Nat} (h : l₁ <:+ l₂) :
    l₁ ++ s <:+ l₂ ++ s := by
  obtain ⟨t, rfl⟩ := h
  exact ⟨t, (List.append_assoc t l₁ s).symm⟩

theorem streamBytes_cons (e : ReadEvent) (l : List ReadEvent) :
    streamBytes (e :: l)
      = (match e with | ReadEvent.chunk d => d | _ => []) ++ streamBytes l := rfl

theorem readLoop_length_le (patterns : List (List Nat)) (maxB : Nat) (hm : 1 ≤ maxB) :
    ∀ (events : List ReadEvent) (buf : List Nat), buf.length ≤ maxB →
      (readLoop patterns maxB events buf).1.length ≤ maxB := by
  intro events
  induction events with
  | nil => intro buf hb; exact hb
  | cons e rest ih =>
      intro buf hb
      cases e with
      | timedOut => exact ih buf hb
      | readError => exact hb
      | chunk data =>
          by_cases hd : data.isEmpty
          · simp only [readLoop, if_pos hd]
            exact ih buf hb
          · simp only [readLoop, if_neg hd]
            cases hf : List.find?
                (fun p => containsAck (boundBuffer maxB (buf ++ data)) p) patterns with
            | some p =>
                simp only [hf]
                exact boundBuffer_length_le maxB hm _
            | none =>
                simp only [hf]
                exact ih _ (boundBuffer_length_le maxB hm _)

theorem readLoop_suffix_stream (patterns : List (List Nat)) (maxB : Nat) :
    ∀ (events : List ReadEvent) (buf : List Nat),
      ∃ n, (readLoop patterns maxB events buf).1 <:+ buf ++ streamBytes (events.take n) := by
  intro events
  induction events with
  | nil => intro buf; exact ⟨0, by simp [readLoop, streamBytes]⟩
  | cons e rest ih =>
      intro buf
      cases e with
      | timedOut =>
          obtain ⟨n, hn⟩ := ih buf
          exact ⟨n + 1, by simpa [readLoop, streamBytes_cons] using hn⟩
      | readError => exact ⟨0, by simp [readLoop, streamBytes]⟩
      | chunk data =>
          by_cases hd : data.isEmpty
          · obtain ⟨n, hn⟩ := ih buf
            refine ⟨n + 1, ?_⟩
            have hde : data = [] := List.isEmpty_iff.mp hd
            simp only [readLoop, if_pos hd, List.take_succ_cons, streamBytes_cons, hde,
              List.nil_append]
            exact hn
          · have hsuf : boundBuffer maxB (buf ++ data) <:+ buf ++ data :=
              boundBuffer_suffix maxB _
            simp only [readLoop, if_neg hd]
            cases hf : List.find?
                (fun p => containsAck (boundBuffer maxB (buf ++ data)) p) patterns with
            | some p =>
                refine ⟨1, ?_⟩
                simp only [hf, List.take_succ_cons, List.take_zero, streamBytes_cons]
                simpa [streamBytes] using hsuf
            | none =>
                obtain ⟨n, hn⟩ := ih (boundBuffer maxB (buf ++ data))
                refine ⟨n + 1, ?_⟩
                simp only [hf, List.take_succ_cons, streamBytes_cons]
                have h2 := List.IsSuffix.trans hn
                  (suffix_append_right (s := streamBytes (rest.take n)) hsuf)
                simpa [List.append_assoc] using h2

/-! ## Claim theorems -/

/-- C1 (amended): the substring recognizer of `send_and_wait_for`
(`p in buf`) matches iff the 4-byte pattern `FE <addr> 06 FF` occurs
contiguously anywhere in the buffer, while the udk variant's `_is_ack`
matches iff the pattern occupies the first four bytes of the response:
trailing stray bytes are tolerated there, leading stray bytes prevent
the match. -/
theorem claim1_ack_recognizers (a : Nat) (buffer response : List Nat) :
    (containsAck buffer (expectedAck a) = true ↔ expectedAck a <:+: buffer)
    ∧ (isAckResponse a response = true ↔ expectedAck a <+: response) :=
  ⟨containsAck_iff buffer (expectedAck a), isAckResponse_iff a response⟩

/-- C1 counterexample: one stray byte before the pattern leaves the
4-byte ACK sequence contiguously inside the buffer (so the substring
recognizer matches), yet `_is_ack` rejects the buffer. -/
theorem claim1_leading_byte_cex :
    containsAck [0x00, 0xFE, 5, 0x06, 0xFF] (expectedAck 5) = true
    ∧ isAckResponse 5 [0x00, 0xFE, 5, 0x06, 0xFF] = false := by
  decide

/-- C2 (amended): for every address, channel in 1..4, level and fade
the built set command is exactly the 14-byte frame
`FF FE <addr> 57 <L1 T1 L2 T2 L3 T3 L4 T4> <checksum> FF` with the
addressed channel's pair clamped and the other pairs `(1, 5)`, and
checksum `(addr + 0x57 + sum(payload)) & 0xFF & 0x7F`; the encoding is
a total function. -/
theorem claim2_set_message_layout (address : Nat) (channel level fade : Int)
    (h1 : 1 ≤ channel) (h2 : channel ≤ 4) :
    buildSetMessage address channel level fade = specSetFrame address channel level fade
    ∧ (buildSetMessage address channel level fade).length = 14 := by
  constructor
  · interval_cases channel <;> rfl
  · rfl

/-- C2 witness at the spec's own scenario (address 5, channel 2,
level 200, fade 3). -/
theorem claim2_set_message_layout_witness :
    buildSetMessage 5 2 200 3 = specSetFrame 5 2 200 3
    ∧ (buildSetMessage 5 2 200 3).length = 14 :=
  claim2_set_message_layout 5 2 200 3 (by decide) (by decide)

/-- C2 counterexample: the frame is 14 bytes long, not 12 as the claim
labels it (its own byte list already has 14 entries). -/
theorem claim2_twelve_byte_cex :
    buildSetMessage 5 2 200 3
      = [0xFF, 0xFE, 0x05, 0x57, 0x01, 0x05, 0xC8, 0x03, 0x01, 0x05, 0x01, 0x05,
         0x39, 0xFF]
    ∧ (buildSetMessage 5 2 200 3).length = 14
    ∧ ((buildSetMessage 5 2 200 3).length == 12) = false := by
  decide

/-- C8: the transition value is truncated toward zero when numeric and
replaced by the default 5 when missing or invalid, the resulting fade
byte of the addressed channel is the clamp of that integer to [0,255],
and the conversion is a total function (the `try/except` absorbs every
conversion failure). -/
theorem claim8_dimm_time_pipeline (t : TransitionInput) (channel level : Int)
    (h1 : 1 ≤ channel) (h2 : channel ≤ 4) :
    (buildDataArray channel level (parseDimmTime t)).getD
        ((2 * (channel - 1)).toNat + 1) 0
      = (match t with
         | TransitionInput.numeric q => clampByte (truncTowardZero q)
         | _ => 5)
    ∧ (buildDataArray channel level (parseDimmTime t)).getD
        ((2 * (channel - 1)).toNat + 1) 0 ≤ 255 := by
  have hcl : ∀ x : Int, clampByte x ≤ 255 := by
    intro x; unfold clampByte; omega
  have hmain : (buildDataArray channel level (parseDimmTime t)).getD
      ((2 * (channel - 1)).toNat + 1) 0
      = (match t with
         | TransitionInput.numeric q => clampByte (truncTowardZero q)
         | _ => 5) := by
    interval_cases channel <;> cases t <;> rfl
  refine ⟨hmain, ?_⟩
  rw [hmain]
  cases t
  · decide
  · exact hcl _
  · decide

/-- C8 witness: transition 3.5 on channel 2 is sent as fade byte 3. -/
theorem claim8_dimm_time_pipeline_witness :
    (buildDataArray 2 100 (parseDimmTime (TransitionInput.numeric (7 / 2)))).getD 3 0
      = clampByte (truncTowardZero (7 / 2))
    ∧ (buildDataArray 2 100 (parseDimmTime (TransitionInput.numeric (7 / 2)))).getD 3 0
      ≤ 255 := by
  exact claim8_dimm_time_pipeline (TransitionInput.numeric (7 / 2)) 2 100
    (by decide) (by decide)

/-- C10: `_build_data_array` is total in the channel index: the payload
always has exactly 8 bytes, a channel below 1 addresses the pair of
channel 1, and a channel above 4 addresses the pair of channel 4. -/
theorem claim10_channel_clamped (channel level fade : Int) :
    (buildDataArray channel level fade).length = 8
    ∧ (channel ≤ 0 → buildDataArray channel level fade = buildDataArray 1 level fade)
    ∧ (5 ≤ channel → buildDataArray channel level fade = buildDataArray 4 level fade) := by
  refine ⟨rfl, fun h => ?_, fun h => ?_⟩
  · have hidx : (max 0 (min 3 (channel - 1))).toNat
        = (max 0 (min 3 ((1 : Int) - 1))).toNat := by omega
    simp only [buildDataArray, hidx]
  · have hidx : (max 0 (min 3 (channel - 1))).toNat
        = (max 0 (min 3 ((4 : Int) - 1))).toNat := by omega
    simp only [buildDataArray, hidx]

/-- C3: against a link whose transactions never match the ACK pattern,
`sende_befehl_mit_ack` performs exactly the configured number of
attempts and reports failure, and `async_turn_on` leaves the cached
on/off flag and brightness exactly as they were. -/
theorem claim3_retry_exhaustion
    (link : List Nat → Nat → List Nat × Option (List Nat))
    (address : Nat) (channel level : Int) (t : TransitionInput)
    (st : DimmerState) (maxW : Nat)
    (h : ∀ msg n, (link msg n).2 ≠ some (expectedAck address)) :
    sendeBefehlMitAck (link (buildSetMessage address channel level (parseDimmTime t)))
        (expectedAck address) maxW = (false, maxW)
    ∧ asyncTurnOn link address channel st level t = st := by
  have h3 := retryGo_never
    (link (buildSetMessage address channel level (parseDimmTime t)))
    (expectedAck address)
    (h (buildSetMessage address channel level (parseDimmTime t)))
  refine ⟨h3 1 maxW, ?_⟩
  simp [asyncTurnOn, sendeBefehlMitAck, h3 1 3]

/-- C3 witness: a link that always returns an empty buffer with no
match exhausts all 3 default attempts and leaves the cache `(on, 7)`
untouched. -/
theorem claim3_retry_exhaustion_witness :
    sendeBefehlMitAck (fun _ => (([] : List Nat), (none : Option (List Nat))))
        (expectedAck 5) 3 = (false, 3)
    ∧ asyncTurnOn (fun _ _ => (([] : List Nat), (none : Option (List Nat))))
        5 2 ⟨true, 7⟩ 200 TransitionInput.missing = ⟨true, 7⟩ := by
  exact claim3_retry_exhaustion (fun _ _ => ([], none)) 5 2 200
    TransitionInput.missing ⟨true, 7⟩ 3 (by intro msg n; simp)

/-- C4: every execution of `send_and_wait_for` leaves the lock balance
of its trace at zero on every exit path — disconnected, write error,
match found, deadline without match, and read error — so no execution
terminates with the lock held. -/
theorem claim4_lock_released (connected writeOk flushB : Bool)
    (message : List Nat) (patterns : List (List Nat)) (maxBuffer : Nat)
    (events : List ReadEvent) :
    lockBalance (sendAndWaitFor connected writeOk flushB message patterns
        maxBuffer events).trace = 0
    ∧ (sendAndWaitFor connected writeOk flushB message patterns maxBuffer
        events).trace.count Ev.acquire
      = (sendAndWaitFor connected writeOk flushB message patterns maxBuffer
        events).trace.count Ev.release := by
  cases connected <;> cases writeOk <;> cases flushB <;>
    simp [sendAndWaitFor, lockBalance, List.count_cons, List.count_append]

/-- C5 (amended): for `max_buffer_bytes ≥ 1`, appending and processing
a chunk keeps the buffer within the bound, discards only the oldest
bytes (the processed buffer is a suffix, and on truncation exactly the
most recent `max_buffer_bytes` bytes), and the buffer the read loop
returns never exceeds the bound and is a suffix of the stream consumed
so far. -/
theorem claim5_buffer_bounded (maxBuffer : Nat) (hm : 1 ≤ maxBuffer)
    (patterns : List (List Nat)) (events : List ReadEvent)
    (buf newBytes : List Nat) (hb : buf.length ≤ maxBuffer) :
    (boundBuffer maxBuffer (buf ++ newBytes)).length ≤ maxBuffer
    ∧ boundBuffer maxBuffer (buf ++ newBytes) <:+ buf ++ newBytes
    ∧ (maxBuffer < (buf ++ newBytes).length →
        boundBuffer maxBuffer (buf ++ newBytes)
          = (buf ++ newBytes).drop ((buf ++ newBytes).length - maxBuffer))
    ∧ (readLoop patterns maxBuffer events buf).1.length ≤ maxBuffer
    ∧ ∃ n, (readLoop patterns maxBuffer events buf).1
        <:+ buf ++ streamBytes (events.take n) :=
  ⟨boundBuffer_length_le _ hm _, boundBuffer_suffix _ _,
   fun h => boundBuffer_eq_drop _ hm _ h,
   readLoop_length_le _ _ hm _ _ hb,
   readLoop_suffix_stream _ _ _ _⟩

/-- C5 witness: bound 2, buffer `[5]`, chunk `[6,7]` truncates to the
most recent two bytes, and a 3-byte chunk through the read loop stays
within the bound. -/
theorem claim5_buffer_bounded_witness :
    (boundBuffer 2 ([5] ++ [6, 7])).length ≤ 2
    ∧ boundBuffer 2 ([5] ++ [6, 7]) <:+ [5] ++ [6, 7]
    ∧ (2 < (([5] ++ [6, 7] : List Nat)).length →
        boundBuffer 2 ([5] ++ [6, 7])
          = ([5] ++ [6, 7]).drop ((([5] ++ [6, 7] : List Nat)).length - 2))
    ∧ (readLoop [[9]] 2 [ReadEvent.chunk [1, 2, 3]] [5]).1.length ≤ 2
    ∧ ∃ n, (readLoop [[9]] 2 [ReadEvent.chunk [1, 2, 3]] [5]).1
        <:+ [5] ++ streamBytes ([ReadEvent.chunk [1, 2, 3]].take n) :=
  claim5_buffer_bounded 2 (by decide) [[9]] [ReadEvent.chunk [1, 2, 3]]
    [5] [6, 7] (by decide)

/-- C5 counterexample: with `max_buffer = 0` the truncation slice
`buf[-0:]` is the whole buffer, so a 1-byte chunk leaves 1 byte in the
buffer, above the bound. -/
theorem claim5_zero_bound_cex :
    (readLoop [[9]] 0 [ReadEvent.chunk [1]] []).1 = [1]
    ∧ decide ((readLoop [[9]] 0 [ReadEvent.chunk [1]] []).1.length ≤ 0) = false := by
  decide

/-- C6 (amended): a set command that succeeds via `async_turn_on` sets
the cached on/off flag to `True` regardless of the level — including
level 0 — and the cached brightness to the level. -/
theorem claim6_success_updates_state
    (link : List Nat → Nat → List Nat × Option (List Nat))
    (address : Nat) (channel level : Int) (t : TransitionInput) (st : DimmerState)
    (h : (sendeBefehlMitAck
        (link (buildSetMessage address channel level (parseDimmTime t)))
        (expectedAck address) 3).1 = true) :
    asyncTurnOn link address channel st level t
      = { isOn := true, brightness := level } := by
  simp [asyncTurnOn, h]

/-- C6 witness: a successful set with level 200 caches `(on, 200)`. -/
theorem claim6_success_updates_state_witness :
    asyncTurnOn (fun _ _ => (expectedAck 5, some (expectedAck 5))) 5 2 ⟨false, 0⟩
        200 TransitionInput.missing = { isOn := true, brightness := 200 } :=
  claim6_success_updates_state (fun _ _ => (expectedAck 5, some (expectedAck 5)))
    5 2 200 TransitionInput.missing ⟨false, 0⟩ (by decide)

/-- C6 counterexample: a successful set with level 0 leaves the cached
on/off flag `true`, while the claim demands it equal `0 > 0`, which is
false. -/
theorem claim6_level_zero_cex :
    asyncTurnOn (fun _ _ => (expectedAck 5, some (expectedAck 5))) 5 2 ⟨false, 0⟩
        0 TransitionInput.missing = { isOn := true, brightness := 0 }
    ∧ decide ((0 : Int) > 0) = false := by
  decide

/-- C7 (amended): the per-read timeout is
`min(read_chunk_timeout, max(0.01, remaining))`; whenever at least
0.01 s remain it equals `min(read_chunk_timeout, remaining)`, and below
that it is floored at 0.01 rather than the remaining time. -/
theorem claim7_chunk_timeout (readChunkTimeout remaining : ℚ)
    (h : 1 / 100 ≤ remaining) :
    chunkTimeoutCalc readChunkTimeout remaining = min readChunkTimeout remaining := by
  unfold chunkTimeoutCalc
  rw [max_eq_right h]

/-- C7 witness: with 0.05 s remaining and chunk timeout 0.12 s the
per-read timeout is the plain minimum. -/
theorem claim7_chunk_timeout_witness :
    chunkTimeoutCalc (12 / 100) (5 / 100) = min (12 / 100 : ℚ) (5 / 100) :=
  claim7_chunk_timeout (12 / 100) (5 / 100) (by norm_num)

/-- C7 counterexample: with 0.005 s remaining the computed timeout is
0.01, not the remaining 0.005 the claim requires. -/
theorem claim7_floor_cex :
    chunkTimeoutCalc (12 / 100) (5 / 1000) = 1 / 100
    ∧ min (12 / 100 : ℚ) (5 / 1000) = 5 / 1000
    ∧ (5 / 1000 : ℚ) < 1 / 100 := by
  refine ⟨?_, ?_, ?_⟩ <;> norm_num [chunkTimeoutCalc, min_def, max_def]

/-- C9: a transact call on a disconnected link returns the empty buffer
and no match with an empty trace — no lock acquisition, no flush, no
write — and a link behaving that way makes the retry loop consume its
attempts exactly as a no-ACK timeout does. -/
theorem claim9_disconnected (writeOk flushB : Bool) (message : List Nat)
    (patterns : List (List Nat)) (maxBuffer : Nat) (events : List ReadEvent)
    (ackPat : List Nat) :
    sendAndWaitFor false writeOk flushB message patterns maxBuffer events
      = { buffer := [], matched := none, trace := [] }
    ∧ sendeBefehlMitAck (fun _ => (([] : List Nat), (none : Option (List Nat))))
        ackPat 3 = (false, 3) := by
  refine ⟨rfl, ?_⟩
  exact retryGo_never _ ackPat (by intro n; simp) 1 3

end Udk0410
